import Mathlib

/-!
Verification of the structural core of the finalcut terminal widget toolkit
(`src/fwidget.cpp`, `src/fprogressbar.cpp`) against its specification.

The geometry model, layout engine, callback registry, focus protocol and
progress-bar percentage logic are embedded shallowly below.  C++ `int`
coordinates are modelled as `Int`; `std::size_t` widths/heights are also
modelled as `Int` (all quantities stay nonnegative in the regimes the
theorems speak about, where the two agree).
-/

namespace FinalCut

/-- Modelled from the spec: the rectangle helper class `FRect` is declared
outside `src/` (frect.h); the spec fixes its meaning — 1-based inclusive
corner coordinates with `width = x2 - x1 + 1`, `height = y2 - y1 + 1`,
"exact arithmetic, not approximate". -/
structure FRect where
  x1 : Int
  y1 : Int
  x2 : Int
  y2 : Int
deriving DecidableEq

/-- Modelled from the spec: rectangle width (`FRect::getWidth`). -/
def FRect.width (r : FRect) : Int := r.x2 - r.x1 + 1

/-- Modelled from the spec: rectangle height (`FRect::getHeight`). -/
def FRect.height (r : FRect) : Int := r.y2 - r.y1 + 1

/-- Modelled from the spec: `FRect::setWidth` keeps `x1` and moves `x2`. -/
def FRect.setWidth (r : FRect) (w : Int) : FRect := { r with x2 := r.x1 + w - 1 }

/-- Modelled from the spec: `FRect::setHeight` keeps `y1` and moves `y2`. -/
def FRect.setHeight (r : FRect) (h : Int) : FRect := { r with y2 := r.y1 + h - 1 }

/-- Modelled from the spec: `FRect::setX` moves the rectangle horizontally,
preserving its width. -/
def FRect.setX (r : FRect) (x : Int) : FRect :=
  { r with x1 := x, x2 := x + (r.x2 - r.x1) }

/-- Modelled from the spec: `FRect::setY` moves the rectangle vertically,
preserving its height. -/
def FRect.setY (r : FRect) (y : Int) : FRect :=
  { r with y1 := y, y2 := y + (r.y2 - r.y1) }

/-- Padding quad (top/right/bottom/left), `FWidget::padding`. -/
structure Padding where
  top : Int
  right : Int
  bottom : Int
  left : Int
deriving DecidableEq

/-- Size hints (`FWidget::size_hints`): min/max width and height. -/
structure SizeHints where
  min_width : Int
  max_width : Int
  min_height : Int
  max_height : Int
deriving DecidableEq

/-- The four double-line border mask sequences (`FWidget::double_flatline_mask`). -/
structure DoubleFlatlineMask where
  top : List Bool
  right : List Bool
  bottom : List Bool
  left : List Bool
deriving DecidableEq

/-- The geometry-relevant state of one widget (fields of `FWidget`).
`isWindow` reifies `isWindowWidget()`; `hasChildPrintArea` reifies
`hasChildPrintArea()` (both are dynamic-type queries answered outside
`src/fwidget.cpp`, so they are carried as state here). -/
structure Widget where
  wsize : FRect
  adjust_wsize : FRect
  offset : FRect
  client_offset : FRect
  padding : Padding
  size_hints : SizeHints
  double_flatline_mask : DoubleFlatlineMask
  isWindow : Bool
  hasChildPrintArea : Bool
deriving DecidableEq

/-- Modelled from the spec: `FWidget::getTermX` (fwidget.h, not under `src/`)
is the terminal-relative x of the widget: `offset.getX1() + getX()`, where
`getX()` reads the adjusted rectangle. -/
def Widget.getTermX (w : Widget) : Int := w.offset.x1 + w.adjust_wsize.x1

/-- Modelled from the spec: `FWidget::getTermY`, vertical analogue. -/
def Widget.getTermY (w : Widget) : Int := w.offset.y1 + w.adjust_wsize.y1

/-- Embeds `std::vector<bool>::resize (n, false)`: truncate to `n` or pad with
`false` up to length `n`. -/
def resizeMask (v : List Bool) (n : Nat) : List Bool :=
  v.take n ++ List.replicate (n - v.length) false

/-- The `while` loop moving a widget left (or up, with y-arguments) one cell
at a time while it overflows on the right (fwidget.cpp:2023-2040):
condition `o1 + p1 + (p2 - p1 + 1) - pad > o2 + 2` is
`getTermX() + int(getWidth()) - padding.right > offset.getX2() + 2`; the body
decrements both corners and clamps the low corner to 1. -/
def moveLoop (o1 o2 pad : Int) (p1 p2 : Int) : Int × Int :=
  if o1 + p1 + (p2 - p1 + 1) - pad > o2 + 2 then
    let p1a := p1 - 1
    let p2a := p2 - 1
    let p1b := if p1a < 1 then 1 else p1a
    moveLoop o1 o2 pad p1b p2a
  else
    (p1, p2)
termination_by (o1 + p2 + 1 - pad - (o2 + 2)).toNat
decreasing_by
  simp_wf
  omega

/-- The `while` loop shrinking a widget one cell at a time while it still
overflows (fwidget.cpp:2043-2044, 2053-2054): condition
`o1 + (p2 - p1 + 1) - 1 > o2` is `offset.getX1() + int(getWidth()) - 1 >
offset.getX2()`; the body decrements the high corner. -/
def shrinkLoop (o1 o2 : Int) (p1 p2 : Int) : Int :=
  if o1 + (p2 - p1 + 1) - 1 > o2 then
    shrinkLoop o1 o2 p1 (p2 - 1)
  else
    p2
termination_by (o1 + (p2 - p1 + 1) - 1 - o2).toNat
decreasing_by
  simp_wf
  omega

/-- Embeds `FWidget::insufficientSpaceAdjust` (fwidget.cpp:2015-2061): move and
shrink the adjusted rectangle when there is not enough space.  Note the
verbatim translation of line 2057: on insufficient height the source calls
`adjust_wsize.setWidth (size_hints.min_height)`. -/
def insufficientSpaceAdjust (w : Widget) : Widget :=
  if w.isWindow then w
  else
    let (x1, x2) := moveLoop w.offset.x1 w.offset.x2 w.padding.right
                      w.adjust_wsize.x1 w.adjust_wsize.x2
    let aw : FRect := { w.adjust_wsize with x1 := x1, x2 := x2 }
    let (y1, y2) := moveLoop w.offset.y1 w.offset.y2 w.padding.bottom aw.y1 aw.y2
    let aw : FRect := { aw with y1 := y1, y2 := y2 }
    let aw : FRect := { aw with x2 := shrinkLoop w.offset.x1 w.offset.x2 aw.x1 aw.x2 }
    let aw : FRect := if aw.width < w.size_hints.min_width
              then aw.setWidth w.size_hints.min_width else aw
    let aw : FRect := if aw.width = 0 then aw.setWidth 1 else aw
    let aw : FRect := { aw with y2 := shrinkLoop w.offset.y1 w.offset.y2 aw.y1 aw.y2 }
    let aw : FRect := if aw.height < w.size_hints.min_height
              then aw.setWidth w.size_hints.min_height else aw
    let aw : FRect := if aw.height = 0 then aw.setHeight 1 else aw
    { w with adjust_wsize := aw }

/-- The client-offset recomputation shared by `FWidget::adjustSize`
(fwidget.cpp:1562-1568) and `FWidget::setGeometry` (fwidget.cpp:616-619):
`(termX - 1 + padding.left, termY - 1 + padding.top,
termX - 2 + width - padding.right, termY - 2 + height - padding.bottom)`. -/
def computeClientOffset (w : Widget) : FRect :=
  { x1 := w.getTermX - 1 + w.padding.left
    y1 := w.getTermY - 1 + w.padding.top
    x2 := w.getTermX - 2 + w.adjust_wsize.width - w.padding.right
    y2 := w.getTermY - 2 + w.adjust_wsize.height - w.padding.bottom }

/-- Embeds `FWidget::adjustSize` (fwidget.cpp:1532-1587) for one non-root widget.
`newOffset` is the offset rectangle the source selects by widget kind
(root's client offset for windows/dialogs, the parent's client offset for
plain widgets, the parent's or the terminal's outer rectangle in the
ignore-padding cases); the function then resets the adjusted rectangle from
the requested one, runs `insufficientSpaceAdjust` unless the widget owns a
child print area, and recomputes the client offset.  The recursion into
non-window children applies this same per-widget transformation to each
child and does not touch the fields of `w` itself, so it is omitted. -/
def adjustSize (newOffset : FRect) (w : Widget) : Widget :=
  let w1 := { w with offset := newOffset, adjust_wsize := w.wsize }
  let w2 := if w1.hasChildPrintArea then w1 else insufficientSpaceAdjust w1
  { w2 with client_offset := computeClientOffset w2 }

/-- Embeds `FWidget::setX` (fwidget.cpp:319-332).  Each setter below returns the
new widget state together with a `Bool` recording whether the layout
recompute `adjustSize()` was invoked by the call; `pco` is the offset
rectangle `adjustSize` would select (see `adjustSize`). -/
def setX (pco : FRect) (w : Widget) (x : Int) (adjust : Bool) : Widget × Bool :=
  if w.adjust_wsize.x1 = x ∧ w.wsize.x1 = x then (w, false)
  else
    let x := if ¬ w.isWindow ∧ x < 1 then 1 else x
    let w1 : Widget := { w with wsize := w.wsize.setX x
                                adjust_wsize := w.adjust_wsize.setX x }
    if adjust then (adjustSize pco w1, true) else (w1, false)

/-- Embeds `FWidget::setY` (fwidget.cpp:335-348). -/
def setY (pco : FRect) (w : Widget) (y : Int) (adjust : Bool) : Widget × Bool :=
  if w.adjust_wsize.y1 = y ∧ w.wsize.y1 = y then (w, false)
  else
    let y := if ¬ w.isWindow ∧ y < 1 then 1 else y
    let w1 : Widget := { w with wsize := w.wsize.setY y
                                adjust_wsize := w.adjust_wsize.setY y }
    if adjust then (adjustSize pco w1, true) else (w1, false)

/-- Embeds `FWidget::setPos` (fwidget.cpp:351-375).  The no-op guard compares the
raw requested coordinates, before the `< 1` clamping. -/
def setPos (pco : FRect) (w : Widget) (px py : Int) (adjust : Bool) :
    Widget × Bool :=
  if w.adjust_wsize.x1 = px ∧ w.wsize.x1 = px
     ∧ w.adjust_wsize.y1 = py ∧ w.wsize.y1 = py then (w, false)
  else
    let px := if ¬ w.isWindow ∧ px < 1 then 1 else px
    let py := if ¬ w.isWindow ∧ py < 1 then 1 else py
    let w1 : Widget := { w with wsize := (w.wsize.setX px).setY py
                                adjust_wsize := (w.adjust_wsize.setX px).setY py }
    if adjust then (adjustSize pco w1, true) else (w1, false)

/-- Embeds `FWidget::setWidth` (fwidget.cpp:378-397): clamp into the hints, guard,
floor at 1, store, optionally recompute, resize the horizontal masks. -/
def setWidth (pco : FRect) (w : Widget) (width : Int) (adjust : Bool) :
    Widget × Bool :=
  let width := min width w.size_hints.max_width
  let width := max width w.size_hints.min_width
  if w.adjust_wsize.width = width ∧ w.wsize.width = width then (w, false)
  else
    let width := if width < 1 then 1 else width
    let w1 : Widget := { w with wsize := w.wsize.setWidth width
                                adjust_wsize := w.adjust_wsize.setWidth width }
    let r := if adjust then (adjustSize pco w1, true) else (w1, false)
    let w2 := r.1
    let m := w2.double_flatline_mask
    ({ w2 with double_flatline_mask :=
        { m with top := resizeMask m.top w2.adjust_wsize.width.toNat
                 bottom := resizeMask m.bottom w2.adjust_wsize.width.toNat } },
     r.2)

/-- Embeds `FWidget::setHeight` (fwidget.cpp:400-419). -/
def setHeight (pco : FRect) (w : Widget) (height : Int) (adjust : Bool) :
    Widget × Bool :=
  let height := min height w.size_hints.max_height
  let height := max height w.size_hints.min_height
  if w.adjust_wsize.height = height ∧ w.wsize.height = height then (w, false)
  else
    let height := if height < 1 then 1 else height
    let w1 : Widget := { w with wsize := w.wsize.setHeight height
                                adjust_wsize := w.adjust_wsize.setHeight height }
    let r := if adjust then (adjustSize pco w1, true) else (w1, false)
    let w2 := r.1
    let m := w2.double_flatline_mask
    ({ w2 with double_flatline_mask :=
        { m with right := resizeMask m.right w2.adjust_wsize.height.toNat
                 left := resizeMask m.left w2.adjust_wsize.height.toNat } },
     r.2)

/-- Embeds `FWidget::setSize` (fwidget.cpp:422-453). -/
def setSize (pco : FRect) (w : Widget) (width height : Int) (adjust : Bool) :
    Widget × Bool :=
  let width := min width w.size_hints.max_width
  let width := max width w.size_hints.min_width
  let height := min height w.size_hints.max_height
  let height := max height w.size_hints.min_height
  if w.adjust_wsize.width = width ∧ w.wsize.width = width
     ∧ w.adjust_wsize.height = height ∧ w.wsize.height = height then (w, false)
  else
    let width := if width < 1 then 1 else width
    let height := if height < 1 then 1 else height
    let w1 : Widget :=
      { w with wsize := (w.wsize.setWidth width).setHeight height
               adjust_wsize := (w.adjust_wsize.setWidth width).setHeight height }
    let r := if adjust then (adjustSize pco w1, true) else (w1, false)
    let w2 := r.1
    ({ w2 with double_flatline_mask :=
        { top := resizeMask w2.double_flatline_mask.top w2.adjust_wsize.width.toNat
          right := resizeMask w2.double_flatline_mask.right w2.adjust_wsize.height.toNat
          bottom := resizeMask w2.double_flatline_mask.bottom w2.adjust_wsize.width.toNat
          left := resizeMask w2.double_flatline_mask.left w2.adjust_wsize.height.toNat } },
     r.2)

/-- Embeds `FWidget::setGeometry` (fwidget.cpp:582-628): clamp the sizes into the
hints, guard against the adjusted position and clamped sizes, clamp the
position (non-window), store both rectangles, recompute the client offset
inline, resize all four masks, and finally recompute the layout when
`adjust` is set. -/
def setGeometry (pco : FRect) (w : Widget) (px py pw ph : Int)
    (adjust : Bool) : Widget × Bool :=
  let pw := min pw w.size_hints.max_width
  let pw := max pw w.size_hints.min_width
  let ph := min ph w.size_hints.max_height
  let ph := max ph w.size_hints.min_height
  if w.adjust_wsize.x1 = px ∧ w.adjust_wsize.y1 = py
     ∧ w.adjust_wsize.width = pw ∧ w.adjust_wsize.height = ph then (w, false)
  else
    let ws : FRect :=
      if ¬ w.isWindow then
        ((w.wsize.setX (if px < 1 then 1 else px)).setY (if py < 1 then 1 else py))
      else
        (w.wsize.setX px).setY py
    let ws : FRect := ws.setWidth (if pw < 1 then 1 else pw)
    let ws : FRect := ws.setHeight (if ph < 1 then 1 else ph)
    let w1 : Widget := { w with wsize := ws, adjust_wsize := ws }
    let w1 : Widget := { w1 with client_offset := computeClientOffset w1 }
    let w1 : Widget :=
      { w1 with double_flatline_mask :=
        { top := resizeMask w1.double_flatline_mask.top w1.adjust_wsize.width.toNat
          right := resizeMask w1.double_flatline_mask.right w1.adjust_wsize.height.toNat
          bottom := resizeMask w1.double_flatline_mask.bottom w1.adjust_wsize.width.toNat
          left := resizeMask w1.double_flatline_mask.left w1.adjust_wsize.height.toNat } }
    if adjust then (adjustSize pco w1, true) else (w1, false)

/-- Embeds `FWidget::resize` (fwidget.cpp:1025-1049) for a non-root widget:
`adjustSize()` followed by resizing the four double-flatline masks to the
resulting width/height. -/
def resize (newOffset : FRect) (w : Widget) : Widget :=
  let w1 := adjustSize newOffset w
  { w1 with double_flatline_mask :=
      { top := resizeMask w1.double_flatline_mask.top w1.adjust_wsize.width.toNat
        right := resizeMask w1.double_flatline_mask.right w1.adjust_wsize.height.toNat
        bottom := resizeMask w1.double_flatline_mask.bottom w1.adjust_wsize.width.toNat
        left := resizeMask w1.double_flatline_mask.left w1.adjust_wsize.height.toNat } }

/-- A non-window widget of requested size 5×8 whose available offset area is
10 columns × 3 rows, with a minimum-height hint of 7. -/
def overflowWidget : Widget :=
  { wsize := ⟨1, 1, 5, 8⟩
    adjust_wsize := ⟨1, 1, 5, 8⟩
    offset := ⟨0, 0, 9, 2⟩
    client_offset := ⟨0, 0, 0, 0⟩
    padding := ⟨0, 0, 0, 0⟩
    size_hints := ⟨1, 1000, 7, 1000⟩
    double_flatline_mask := ⟨[], [], [], []⟩
    isWindow := false
    hasChildPrintArea := false }

/-- C3: claimed — `insufficientSpaceAdjust` never shrinks the adjusted
rectangle below the minimum size hints.  The code disagrees on the height:
line 2057 executes `adjust_wsize.setWidth (size_hints.min_height)` where
`setHeight` is intended, so on `overflowWidget` (min-height hint 7,
available height 3) the adjusted height ends at 3 < 7 while the width is
overwritten to 7. -/
theorem C3_min_height_bug :
    (insufficientSpaceAdjust overflowWidget).adjust_wsize.height = 3
    ∧ (insufficientSpaceAdjust overflowWidget).adjust_wsize.height
        < overflowWidget.size_hints.min_height
    ∧ (insufficientSpaceAdjust overflowWidget).adjust_wsize.width = 7 := by
  have h1 : moveLoop 0 9 0 1 5 = (1, 5) := by repeat (rw [moveLoop]; norm_num)
  have h2 : moveLoop 0 2 0 1 8 = (1, 3) := by repeat (rw [moveLoop]; norm_num)
  have h3 : shrinkLoop 0 9 1 5 = 5 := by repeat (rw [shrinkLoop]; norm_num)
  have h4 : shrinkLoop 0 2 1 3 = 3 := by repeat (rw [shrinkLoop]; norm_num)
  refine ⟨?_, ?_, ?_⟩ <;>
    norm_num [insufficientSpaceAdjust, overflowWidget, h1, h2, h3, h4,
      FRect.width, FRect.height, FRect.setWidth, FRect.setHeight]

/-- A non-window widget with width hints `[4, 6]` and height hints
`[10, 20]`, requested rectangle 5×12 at (1,1). -/
def clampBugWidget : Widget :=
  { wsize := ⟨1, 1, 5, 12⟩
    adjust_wsize := ⟨1, 1, 5, 12⟩
    offset := ⟨0, 0, 79, 23⟩
    client_offset := ⟨0, 0, 0, 0⟩
    padding := ⟨0, 0, 0, 0⟩
    size_hints := ⟨4, 6, 10, 20⟩
    double_flatline_mask := ⟨[], [], [], []⟩
    isWindow := false
    hasChildPrintArea := false }

/-- C4: claimed — after any successful geometry mutation the adjusted width
lies in `[min_width, max_width]`.  With the adjust flag set, the layout
recompute runs `insufficientSpaceAdjust`, whose min-height branch (the
`setWidth (min_height)` slip of fwidget.cpp:2057) overwrites the width:
`setWidth 6` on `clampBugWidget` with a parent client offset of 10×3 leaves
the adjusted width at 10, outside `[4, 6]`. -/
theorem C4_range_bug :
    (setWidth ⟨0, 0, 9, 2⟩ clampBugWidget 6 true).1.adjust_wsize.width = 10
    ∧ clampBugWidget.size_hints.max_width = 6
    ∧ ¬ ((setWidth ⟨0, 0, 9, 2⟩ clampBugWidget 6 true).1.adjust_wsize.width
          ≤ clampBugWidget.size_hints.max_width) := by
  have h1 : moveLoop 0 9 0 1 6 = (1, 6) := by repeat (rw [moveLoop]; norm_num)
  have h2 : moveLoop 0 2 0 1 12 = (1, 3) := by repeat (rw [moveLoop]; norm_num)
  have h3 : shrinkLoop 0 9 1 6 = 6 := by repeat (rw [shrinkLoop]; norm_num)
  have h4 : shrinkLoop 0 2 1 3 = 3 := by repeat (rw [shrinkLoop]; norm_num)
  refine ⟨?_, ?_, ?_⟩ <;>
    norm_num [setWidth, adjustSize, insufficientSpaceAdjust, computeClientOffset,
      clampBugWidget, h1, h2, h3, h4, FRect.width, FRect.height,
      FRect.setWidth, FRect.setHeight, Widget.getTermX, Widget.getTermY]

/-- The client-offset invariant of §4.1/§8: the stored client offset equals
the adjusted rectangle shrunk by the padding quad. -/
def clientOffsetConsistent (w : Widget) : Prop :=
  w.client_offset = computeClientOffset w

/-- After `adjustSize` the client offset is the freshly recomputed one. -/
theorem adjustSize_clientOffset (no : FRect) (w : Widget) :
    clientOffsetConsistent (adjustSize no w) := rfl

/-- A widget whose stored client offset matches its 10×5 adjusted rectangle. -/
def staleOffsetWidget : Widget :=
  { wsize := ⟨1, 1, 10, 5⟩
    adjust_wsize := ⟨1, 1, 10, 5⟩
    offset := ⟨0, 0, 79, 23⟩
    client_offset := ⟨0, 0, 9, 4⟩
    padding := ⟨0, 0, 0, 0⟩
    size_hints := ⟨1, 1000, 1, 1000⟩
    double_flatline_mask := ⟨[], [], [], []⟩
    isWindow := false
    hasChildPrintArea := false }

/-- C5 counterexample: claimed — after any successful geometry mutation, for
either value of the adjust flag, the client offset equals the adjusted
rectangle shrunk by padding.  `setWidth` with the adjust flag unset stores a
new width but never recomputes the client offset (fwidget.cpp:378-397 only
resizes the masks), leaving it stale. -/
theorem C5_counterexample :
    clientOffsetConsistent staleOffsetWidget
    ∧ ¬ clientOffsetConsistent
        (setWidth ⟨0, 0, 79, 23⟩ staleOffsetWidget 12 false).1 := by
  constructor
  · show staleOffsetWidget.client_offset = computeClientOffset staleOffsetWidget
    decide
  · show ¬ (setWidth ⟨0, 0, 79, 23⟩ staleOffsetWidget 12 false).1.client_offset
        = computeClientOffset (setWidth ⟨0, 0, 79, 23⟩ staleOffsetWidget 12 false).1
    decide

/-- C5 (amended): a mutating `setGeometry` call recomputes the client offset
inline, and any geometry setter that runs the layout recompute (adjust flag
set and the no-op guard not taken, witnessed by the returned `Bool`) leaves
the client offset equal to the adjusted rectangle shrunk by padding; setter
calls with the adjust flag unset do not restore this invariant. -/
theorem setX_recompute_clientOffset (pco : FRect) (w : Widget) (x : Int)
    (adjust : Bool) (hb : (setX pco w x adjust).2 = true) :
    clientOffsetConsistent (setX pco w x adjust).1 := by
  unfold setX at hb ⊢
  by_cases hg : w.adjust_wsize.x1 = x ∧ w.wsize.x1 = x
  · rw [if_pos hg] at hb
    exact absurd hb (by simp)
  · rw [if_neg hg] at hb ⊢
    cases adjust
    · exact absurd hb (by simp)
    · rfl

theorem setY_recompute_clientOffset (pco : FRect) (w : Widget) (y : Int)
    (adjust : Bool) (hb : (setY pco w y adjust).2 = true) :
    clientOffsetConsistent (setY pco w y adjust).1 := by
  unfold setY at hb ⊢
  by_cases hg : w.adjust_wsize.y1 = y ∧ w.wsize.y1 = y
  · rw [if_pos hg] at hb
    exact absurd hb (by simp)
  · rw [if_neg hg] at hb ⊢
    cases adjust
    · exact absurd hb (by simp)
    · rfl

theorem setPos_recompute_clientOffset (pco : FRect) (w : Widget) (px py : Int)
    (adjust : Bool) (hb : (setPos pco w px py adjust).2 = true) :
    clientOffsetConsistent (setPos pco w px py adjust).1 := by
  unfold setPos at hb ⊢
  by_cases hg : w.adjust_wsize.x1 = px ∧ w.wsize.x1 = px
      ∧ w.adjust_wsize.y1 = py ∧ w.wsize.y1 = py
  · rw [if_pos hg] at hb
    exact absurd hb (by simp)
  · rw [if_neg hg] at hb ⊢
    cases adjust
    · exact absurd hb (by simp)
    · rfl

theorem setWidth_recompute_clientOffset (pco : FRect) (w : Widget) (wd : Int)
    (adjust : Bool) (hb : (setWidth pco w wd adjust).2 = true) :
    clientOffsetConsistent (setWidth pco w wd adjust).1 := by
  unfold setWidth at hb ⊢
  by_cases hg : w.adjust_wsize.width = max (min wd w.size_hints.max_width) w.size_hints.min_width
      ∧ w.wsize.width = max (min wd w.size_hints.max_width) w.size_hints.min_width
  · rw [if_pos hg] at hb
    exact absurd hb (by simp)
  · rw [if_neg hg] at hb ⊢
    cases adjust
    · exact absurd hb (by simp)
    · rfl

theorem setHeight_recompute_clientOffset (pco : FRect) (w : Widget) (ht : Int)
    (adjust : Bool) (hb : (setHeight pco w ht adjust).2 = true) :
    clientOffsetConsistent (setHeight pco w ht adjust).1 := by
  unfold setHeight at hb ⊢
  by_cases hg : w.adjust_wsize.height = max (min ht w.size_hints.max_height) w.size_hints.min_height
      ∧ w.wsize.height = max (min ht w.size_hints.max_height) w.size_hints.min_height
  · rw [if_pos hg] at hb
    exact absurd hb (by simp)
  · rw [if_neg hg] at hb ⊢
    cases adjust
    · exact absurd hb (by simp)
    · rfl

theorem setSize_recompute_clientOffset (pco : FRect) (w : Widget) (wd ht : Int)
    (adjust : Bool) (hb : (setSize pco w wd ht adjust).2 = true) :
    clientOffsetConsistent (setSize pco w wd ht adjust).1 := by
  unfold setSize at hb ⊢
  by_cases hg : w.adjust_wsize.width = max (min wd w.size_hints.max_width) w.size_hints.min_width
      ∧ w.wsize.width = max (min wd w.size_hints.max_width) w.size_hints.min_width
      ∧ w.adjust_wsize.height = max (min ht w.size_hints.max_height) w.size_hints.min_height
      ∧ w.wsize.height = max (min ht w.size_hints.max_height) w.size_hints.min_height
  · rw [if_pos hg] at hb
    exact absurd hb (by simp)
  · rw [if_neg hg] at hb ⊢
    cases adjust
    · exact absurd hb (by simp)
    · rfl

theorem setGeometry_mutating_clientOffset (pco : FRect) (w : Widget)
    (px py pw ph : Int) (adjust : Bool)
    (hgeom : ¬ (w.adjust_wsize.x1 = px ∧ w.adjust_wsize.y1 = py
      ∧ w.adjust_wsize.width = max (min pw w.size_hints.max_width) w.size_hints.min_width
      ∧ w.adjust_wsize.height = max (min ph w.size_hints.max_height) w.size_hints.min_height)) :
    clientOffsetConsistent (setGeometry pco w px py pw ph adjust).1 := by
  unfold setGeometry
  rw [if_neg hgeom]
  cases adjust
  · rfl
  · rfl

/-- C5 (amended): a mutating `setGeometry` call recomputes the client offset
inline, and any geometry setter that runs the layout recompute (adjust flag
set and the no-op guard not taken, witnessed by the returned `Bool`) leaves
the client offset equal to the adjusted rectangle shrunk by padding; setter
calls with the adjust flag unset do not restore this invariant. -/
theorem C5_client_offset (pco : FRect) (w : Widget) (px py pw ph x y wd ht : Int)
    (adjust : Bool)
    (hgeom : ¬ (w.adjust_wsize.x1 = px ∧ w.adjust_wsize.y1 = py
      ∧ w.adjust_wsize.width = max (min pw w.size_hints.max_width) w.size_hints.min_width
      ∧ w.adjust_wsize.height = max (min ph w.size_hints.max_height) w.size_hints.min_height)) :
    clientOffsetConsistent (setGeometry pco w px py pw ph adjust).1
    ∧ ((setX pco w x adjust).2 = true → clientOffsetConsistent (setX pco w x adjust).1)
    ∧ ((setY pco w y adjust).2 = true → clientOffsetConsistent (setY pco w y adjust).1)
    ∧ ((setPos pco w px py adjust).2 = true → clientOffsetConsistent (setPos pco w px py adjust).1)
    ∧ ((setWidth pco w wd adjust).2 = true → clientOffsetConsistent (setWidth pco w wd adjust).1)
    ∧ ((setHeight pco w ht adjust).2 = true → clientOffsetConsistent (setHeight pco w ht adjust).1)
    ∧ ((setSize pco w wd ht adjust).2 = true → clientOffsetConsistent (setSize pco w wd ht adjust).1) :=
  ⟨setGeometry_mutating_clientOffset pco w px py pw ph adjust hgeom,
   setX_recompute_clientOffset pco w x adjust,
   setY_recompute_clientOffset pco w y adjust,
   setPos_recompute_clientOffset pco w px py adjust,
   setWidth_recompute_clientOffset pco w wd adjust,
   setHeight_recompute_clientOffset pco w ht adjust,
   setSize_recompute_clientOffset pco w wd ht adjust⟩

/-- The double-line mask invariant of §3/§8: the top and bottom sequences
have one cell per column of the current adjusted width, the left and right
sequences one cell per row of the current adjusted height. -/
def maskLengthsConsistent (w : Widget) : Prop :=
  w.double_flatline_mask.top.length = w.adjust_wsize.width.toNat
  ∧ w.double_flatline_mask.bottom.length = w.adjust_wsize.width.toNat
  ∧ w.double_flatline_mask.left.length = w.adjust_wsize.height.toNat
  ∧ w.double_flatline_mask.right.length = w.adjust_wsize.height.toNat

theorem resizeMask_length (v : List Bool) (n : Nat) :
    (resizeMask v n).length = n := by
  simp [resizeMask]
  omega

theorem setX_height_eq (r : FRect) (x : Int) : (r.setX x).height = r.height := by
  simp only [FRect.setX, FRect.height]

theorem setX_width_eq (r : FRect) (x : Int) : (r.setX x).width = r.width := by
  simp only [FRect.setX, FRect.width]
  omega

theorem setY_height_eq (r : FRect) (y : Int) : (r.setY y).height = r.height := by
  simp only [FRect.setY, FRect.height]
  omega

theorem setY_width_eq (r : FRect) (y : Int) : (r.setY y).width = r.width := by
  simp only [FRect.setY, FRect.width]

theorem setWidth_height_eq (r : FRect) (v : Int) : (r.setWidth v).height = r.height := by
  simp only [FRect.setWidth, FRect.height]

theorem setHeight_width_eq (r : FRect) (v : Int) : (r.setHeight v).width = r.width := by
  simp only [FRect.setHeight, FRect.width]

theorem resize_maskLengths (no : FRect) (w : Widget) :
    maskLengthsConsistent (resize no w) := by
  unfold resize maskLengthsConsistent
  refine ⟨?_, ?_, ?_, ?_⟩ <;> simp [resizeMask_length]

/-- C6 (amended): the mask-length invariant is preserved by `setWidth`,
`setHeight`, `setSize` and `setGeometry` called without the adjust flag and
re-established by `resize`; a bare `adjustSize` does not resize the masks. -/
theorem C6_mask_lengths (pco no : FRect) (w : Widget) (wd ht px py : Int)
    (h : maskLengthsConsistent w) :
    maskLengthsConsistent (setWidth pco w wd false).1
    ∧ maskLengthsConsistent (setHeight pco w ht false).1
    ∧ maskLengthsConsistent (setSize pco w wd ht false).1
    ∧ maskLengthsConsistent (setGeometry pco w px py wd ht false).1
    ∧ maskLengthsConsistent (resize no w) := by
  obtain ⟨htop, hbot, hleft, hright⟩ := h
  refine ⟨?_, ?_, ?_, ?_, resize_maskLengths no w⟩
  · unfold setWidth
    by_cases hg : w.adjust_wsize.width = max (min wd w.size_hints.max_width) w.size_hints.min_width
        ∧ w.wsize.width = max (min wd w.size_hints.max_width) w.size_hints.min_width
    · rw [if_pos hg]
      exact ⟨htop, hbot, hleft, hright⟩
    · rw [if_neg hg]
      refine ⟨?_, ?_, ?_, ?_⟩ <;>
        simp [resizeMask_length, setWidth_height_eq, hleft, hright]
  · unfold setHeight
    by_cases hg : w.adjust_wsize.height = max (min ht w.size_hints.max_height) w.size_hints.min_height
        ∧ w.wsize.height = max (min ht w.size_hints.max_height) w.size_hints.min_height
    · rw [if_pos hg]
      exact ⟨htop, hbot, hleft, hright⟩
    · rw [if_neg hg]
      refine ⟨?_, ?_, ?_, ?_⟩ <;>
        simp [resizeMask_length, setHeight_width_eq, htop, hbot]
  · unfold setSize
    by_cases hg : w.adjust_wsize.width = max (min wd w.size_hints.max_width) w.size_hints.min_width
        ∧ w.wsize.width = max (min wd w.size_hints.max_width) w.size_hints.min_width
        ∧ w.adjust_wsize.height = max (min ht w.size_hints.max_height) w.size_hints.min_height
        ∧ w.wsize.height = max (min ht w.size_hints.max_height) w.size_hints.min_height
    · rw [if_pos hg]
      exact ⟨htop, hbot, hleft, hright⟩
    · rw [if_neg hg]
      refine ⟨?_, ?_, ?_, ?_⟩ <;> simp [resizeMask_length]
  · unfold setGeometry
    by_cases hg : w.adjust_wsize.x1 = px ∧ w.adjust_wsize.y1 = py
        ∧ w.adjust_wsize.width = max (min wd w.size_hints.max_width) w.size_hints.min_width
        ∧ w.adjust_wsize.height = max (min ht w.size_hints.max_height) w.size_hints.min_height
    · rw [if_pos hg]
      exact ⟨htop, hbot, hleft, hright⟩
    · rw [if_neg hg]
      refine ⟨?_, ?_, ?_, ?_⟩ <;> simp [resizeMask_length]

/-- A widget whose requested width (7) differs from its adjusted width (5),
with mask lengths consistent with the adjusted rectangle (5×5). -/
def maskDriftWidget : Widget :=
  { wsize := ⟨1, 1, 7, 5⟩
    adjust_wsize := ⟨1, 1, 5, 5⟩
    offset := ⟨0, 0, 79, 23⟩
    client_offset := ⟨0, 0, 0, 0⟩
    padding := ⟨0, 0, 0, 0⟩
    size_hints := ⟨1, 1000, 1, 1000⟩
    double_flatline_mask := ⟨List.replicate 5 false, List.replicate 5 false,
                             List.replicate 5 false, List.replicate 5 false⟩
    isWindow := false
    hasChildPrintArea := false }

/-- C6 counterexample: claimed — every operation including `adjustSize`
preserves the mask-length invariant.  A bare `adjustSize` resets the
adjusted rectangle from the requested one (here: width 5 becomes 7) but
never touches the four masks (fwidget.cpp:1532-1587), breaking the
invariant. -/
theorem C6_counterexample :
    maskLengthsConsistent maskDriftWidget
    ∧ ¬ maskLengthsConsistent (adjustSize ⟨0, 0, 79, 23⟩ maskDriftWidget) := by
  have h1 : moveLoop 0 79 0 1 7 = (1, 7) := by repeat (rw [moveLoop]; norm_num)
  have h2 : moveLoop 0 23 0 1 5 = (1, 5) := by repeat (rw [moveLoop]; norm_num)
  have h3 : shrinkLoop 0 79 1 7 = 7 := by repeat (rw [shrinkLoop]; norm_num)
  have h4 : shrinkLoop 0 23 1 5 = 5 := by repeat (rw [shrinkLoop]; norm_num)
  constructor
  · refine ⟨?_, ?_, ?_, ?_⟩ <;> decide
  · intro hc
    have htop := hc.1
    have hw : (adjustSize ⟨0, 0, 79, 23⟩ maskDriftWidget).adjust_wsize.width = 7 := by
      norm_num [adjustSize, insufficientSpaceAdjust, maskDriftWidget, h1, h2, h3, h4,
        FRect.width, FRect.height, FRect.setWidth, FRect.setHeight]
    have hmask : (adjustSize ⟨0, 0, 79, 23⟩ maskDriftWidget).double_flatline_mask.top.length = 5 := by
      norm_num [adjustSize, insufficientSpaceAdjust, maskDriftWidget, h1, h2, h3, h4,
        FRect.width, FRect.height, FRect.setWidth, FRect.setHeight]
    rw [hw, hmask] at htop
    exact absurd htop (by decide)

/-- A consistent non-window widget positioned at (1,1) with size 10×5. -/
def posClampWidget : Widget :=
  { wsize := ⟨1, 1, 10, 5⟩
    adjust_wsize := ⟨1, 1, 10, 5⟩
    offset := ⟨0, 0, 79, 23⟩
    client_offset := ⟨0, 0, 9, 4⟩
    padding := ⟨0, 0, 0, 0⟩
    size_hints := ⟨1, 1000, 1, 1000⟩
    double_flatline_mask := ⟨[], [], [], []⟩
    isWindow := false
    hasChildPrintArea := false }

/-- C8 counterexample: claimed — a setter call whose *clamped* position and
size equal the stored values is a no-op that never invokes the layout
recompute.  The position guard of `setPos` (fwidget.cpp:355-359) compares
the raw requested coordinates: requesting (0,0) on a widget at (1,1) clamps
back to (1,1), yet the guard is missed and `adjustSize()` runs (the
returned Bool records the recompute invocation). -/
theorem C8_counterexample :
    (if (0 : Int) < 1 then (1 : Int) else 0) = posClampWidget.adjust_wsize.x1
    ∧ (if (0 : Int) < 1 then (1 : Int) else 0) = posClampWidget.wsize.x1
    ∧ (if (0 : Int) < 1 then (1 : Int) else 0) = posClampWidget.adjust_wsize.y1
    ∧ (if (0 : Int) < 1 then (1 : Int) else 0) = posClampWidget.wsize.y1
    ∧ (setPos ⟨0, 0, 79, 23⟩ posClampWidget 0 0 true).2 = true := by
  refine ⟨by decide, by decide, by decide, by decide, rfl⟩

/-- C8 (amended): a setter call is a no-op — state unchanged and the layout
recompute not invoked, for either value of the adjust flag — when the *raw*
requested position equals both stored positions and the *clamped* requested
sizes equal both stored sizes (for `setGeometry`: when the raw position and
clamped sizes equal the stored adjusted values); a call whose position
merely clamps back to the current one is not a no-op. -/
theorem C8_noop_guard (pco : FRect) (w : Widget) (px py pw ph : Int)
    (adjust : Bool)
    (hpos : w.adjust_wsize.x1 = px ∧ w.wsize.x1 = px
      ∧ w.adjust_wsize.y1 = py ∧ w.wsize.y1 = py)
    (hgeom : w.adjust_wsize.x1 = px ∧ w.adjust_wsize.y1 = py
      ∧ w.adjust_wsize.width = max (min pw w.size_hints.max_width) w.size_hints.min_width
      ∧ w.adjust_wsize.height = max (min ph w.size_hints.max_height) w.size_hints.min_height)
    (hw : w.adjust_wsize.width = max (min pw w.size_hints.max_width) w.size_hints.min_width
      ∧ w.wsize.width = max (min pw w.size_hints.max_width) w.size_hints.min_width)
    (hh : w.adjust_wsize.height = max (min ph w.size_hints.max_height) w.size_hints.min_height
      ∧ w.wsize.height = max (min ph w.size_hints.max_height) w.size_hints.min_height) :
    setPos pco w px py adjust = (w, false)
    ∧ setGeometry pco w px py pw ph adjust = (w, false)
    ∧ setWidth pco w pw adjust = (w, false)
    ∧ setHeight pco w ph adjust = (w, false)
    ∧ setSize pco w pw ph adjust = (w, false) := by
  refine ⟨?_, ?_, ?_, ?_, ?_⟩
  · unfold setPos
    rw [if_pos hpos]
  · unfold setGeometry
    rw [if_pos hgeom]
  · unfold setWidth
    rw [if_pos hw]
  · unfold setHeight
    rw [if_pos hh]
  · unfold setSize
    rw [if_pos ⟨hw.1, hw.2, hh.1, hh.2⟩]

/-- A free-standing callback entry (`FWidget::callback_data`): signal name,
plain function-pointer handler and opaque payload, the latter two modelled
as identifiers. -/
structure callback_data where
  cb_signal : String
  cb_handler : Nat
  data : Nat
deriving DecidableEq

/-- An instance-bound callback entry (`FWidget::member_callback_data`). -/
structure member_callback_data where
  cb_signal : String
  cb_instance : Nat
  cb_handler : Nat
  data : Nat
deriving DecidableEq

/-- One observed handler invocation during `emitCallback`. -/
inductive CallbackCall where
  | memberCall (cb_instance cb_handler data : Nat)
  | freeCall (cb_handler data : Nat)
deriving DecidableEq

/-- The first loop of `FWidget::emitCallback` (fwidget.cpp:915-931): walk the
member-callback registry in order, invoking each entry whose signal matches. -/
def emitMemberCallbacks : List member_callback_data → String → List CallbackCall
  | [], _ => []
  | m :: rest, s =>
      (if m.cb_signal = s
       then [CallbackCall.memberCall m.cb_instance m.cb_handler m.data] else [])
        ++ emitMemberCallbacks rest s

/-- The second loop of `FWidget::emitCallback` (fwidget.cpp:934-950): walk the
free-callback registry in order, invoking each entry whose signal matches. -/
def emitFreeCallbacks : List callback_data → String → List CallbackCall
  | [], _ => []
  | c :: rest, s =>
      (if c.cb_signal = s
       then [CallbackCall.freeCall c.cb_handler c.data] else [])
        ++ emitFreeCallbacks rest s

/-- Embeds `FWidget::emitCallback` (fwidget.cpp:911-951): the member-callback
loop runs first, then the free-callback loop; the result is the sequence of
handler invocations. -/
def emitCallback (member_callback_objects : List member_callback_data)
    (callback_objects : List callback_data) (emit_signal : String) :
    List CallbackCall :=
  emitMemberCallbacks member_callback_objects emit_signal
    ++ emitFreeCallbacks callback_objects emit_signal

theorem emitMemberCallbacks_eq_filter (ml : List member_callback_data) (s : String) :
    emitMemberCallbacks ml s
      = (ml.filter (fun m => m.cb_signal == s)).map
          (fun m => CallbackCall.memberCall m.cb_instance m.cb_handler m.data) := by
  induction ml with
  | nil => rfl
  | cons m rest ih =>
      by_cases hm : m.cb_signal = s <;>
        simp [emitMemberCallbacks, List.filter_cons, hm, ih]

theorem emitFreeCallbacks_eq_filter (fl : List callback_data) (s : String) :
    emitFreeCallbacks fl s
      = (fl.filter (fun c => c.cb_signal == s)).map
          (fun c => CallbackCall.freeCall c.cb_handler c.data) := by
  induction fl with
  | nil => rfl
  | cons c rest ih =>
      by_cases hc : c.cb_signal = s <;>
        simp [emitFreeCallbacks, List.filter_cons, hc, ih]

/-- A member-callback entry for signal "clicked". -/
def clickedMember : member_callback_data := ⟨"clicked", 1, 2, 0⟩

/-- A free-callback entry for signal "clicked". -/
def clickedFree : callback_data := ⟨"clicked", 3, 0⟩

/-- C1 counterexample: claimed — free-standing handlers are invoked before
instance-bound handlers.  With one member entry and one free entry for
"clicked", `emitCallback` invokes the member entry first (the member loop
precedes the free loop in fwidget.cpp:911-951), not the free entry. -/
theorem C1_counterexample :
    emitCallback [clickedMember] [clickedFree] "clicked"
      = [CallbackCall.memberCall 1 2 0, CallbackCall.freeCall 3 0]
    ∧ emitCallback [clickedMember] [clickedFree] "clicked"
      ≠ [CallbackCall.freeCall 3 0, CallbackCall.memberCall 1 2 0] := by
  constructor
  · rfl
  · decide

/-- C1 (amended): `emitCallback` invokes exactly once, in registration
order, every registered entry whose signal matches, with all instance-bound
(member) handler entries invoked before all free-standing handler entries. -/
theorem C1_emit_order (ml : List member_callback_data) (fl : List callback_data)
    (s : String) :
    emitCallback ml fl s
      = (ml.filter (fun m => m.cb_signal == s)).map
          (fun m => CallbackCall.memberCall m.cb_instance m.cb_handler m.data)
        ++ (fl.filter (fun c => c.cb_signal == s)).map
          (fun c => CallbackCall.freeCall c.cb_handler c.data) := by
  unfold emitCallback
  rw [emitMemberCallbacks_eq_filter, emitFreeCallbacks_eq_filter]

/-- The focus-relevant process state: widgets are identified by `Nat`; each
carries its `flags.active` (enabled) and `flags.focus` bits, and there is
one global focus pointer (`FWidget::getFocusWidget`/`setFocusWidget`).  The
per-window focus pointer, raising and redrawing performed by `setFocus` do
not feed back into these fields and are omitted. -/
structure FocusState where
  enabled : Nat → Bool
  focus : Nat → Bool
  focusWidget : Option Nat

/-- Embeds `FWidget::setFocus (false)` (fwidget.cpp:272-309, the
`enable = false` instance, reached from `unsetFocus()`): a disabled widget
fails silently returning `false`; an already-unfocused widget returns
`true`; otherwise only the widget's own focus flag is cleared (the global
pointer is not touched) and `false` (= `enable`) is returned. -/
def unsetFocus (s : FocusState) (w : Nat) : FocusState × Bool :=
  if s.enabled w = false then (s, false)
  else if s.focus w = false then (s, true)
  else ({ s with focus := fun v => if v = w then false else s.focus v }, false)

/-- Embeds `FWidget::setFocus (true)` (fwidget.cpp:272-309, the
`enable = true` instance): a disabled widget fails silently; an
already-focused widget returns `true` unchanged; otherwise the last focus
holder (if any) receives `unsetFocus()`, the global pointer moves to `w`,
and `w`'s focus flag is set. -/
def setFocusTrue (s : FocusState) (w : Nat) : FocusState × Bool :=
  if s.enabled w = false then (s, false)
  else if s.focus w = true then (s, true)
  else
    let s1 := match s.focusWidget with
      | some last => (unsetFocus s last).1
      | none => s
    let s2 : FocusState := { s1 with focusWidget := some w }
    ({ s2 with focus := fun v => if v = w then true else s2.focus v }, true)

/-- Embeds `FWidget::setFocus (enable)` (fwidget.cpp:272-309); the recursive
`last_focus->unsetFocus()` call is the `enable = false` instance above. -/
def setFocus (s : FocusState) (w : Nat) (enable : Bool) : FocusState × Bool :=
  if enable then setFocusTrue s w else unsetFocus s w

/-- Focus coherence: every widget whose focus flag is set is the one the
global pointer names, and is enabled. -/
def FocusInv (s : FocusState) : Prop :=
  ∀ v, s.focus v = true → s.focusWidget = some v ∧ s.enabled v = true

theorem unsetFocus_enabled (s : FocusState) (w : Nat) :
    (unsetFocus s w).1.enabled = s.enabled := by
  unfold unsetFocus
  split_ifs <;> rfl

theorem unsetFocus_focusWidget (s : FocusState) (w : Nat) :
    (unsetFocus s w).1.focusWidget = s.focusWidget := by
  unfold unsetFocus
  split_ifs <;> rfl

theorem unsetFocus_inv (s : FocusState) (w : Nat) (h : FocusInv s) :
    FocusInv (unsetFocus s w).1 := by
  unfold unsetFocus
  split_ifs with h1 h2
  · exact h
  · exact h
  · intro v hv
    simp only at hv
    by_cases hvw : v = w
    · simp [hvw] at hv
    · rw [if_neg hvw] at hv
      exact h v hv

theorem unsetFocus_clears (s : FocusState) (w : Nat)
    (he : s.enabled w = true) :
    ∀ v, (unsetFocus s w).1.focus v = true → v ≠ w ∧ s.focus v = true := by
  unfold unsetFocus
  rw [if_neg (by simp [he])]
  split_ifs with h2
  · intro v hv
    refine ⟨?_, hv⟩
    intro hvw
    rw [hvw] at hv
    exact absurd hv (by simp [h2])
  · intro v hv
    simp only at hv
    by_cases hvw : v = w
    · simp [hvw] at hv
    · rw [if_neg hvw] at hv
      exact ⟨hvw, hv⟩

theorem setFocusTrue_focus (s : FocusState) (w : Nat)
    (hInv : FocusInv s) (he : s.enabled w = true) :
    (setFocusTrue s w).1.focus w = true
    ∧ (setFocusTrue s w).1.focusWidget = some w
    ∧ (∀ v, v ≠ w → (setFocusTrue s w).1.focus v = false)
    ∧ (setFocusTrue s w).1.enabled = s.enabled := by
  unfold setFocusTrue
  rw [if_neg (by simp [he])]
  split_ifs with h2
  · obtain ⟨hp, _⟩ := hInv w h2
    refine ⟨h2, hp, ?_, rfl⟩
    intro v hvw
    by_cases hf : s.focus v = true
    · obtain ⟨hpv, _⟩ := hInv v hf
      rw [hp] at hpv
      exact absurd (Option.some.inj hpv) (Ne.symm hvw)
    · exact Bool.not_eq_true _ ▸ hf
  · cases hfw : s.focusWidget with
    | none =>
        refine ⟨by simp, by simp [hfw], ?_, by simp [hfw]⟩
        intro v hvw
        simp only [hfw]
        rw [if_neg hvw]
        by_cases hf : s.focus v = true
        · exact absurd (hInv v hf).1 (by simp [hfw])
        · exact Bool.not_eq_true _ ▸ hf
    | some last =>
        refine ⟨by simp, by simp [hfw], ?_, by simp [hfw, unsetFocus_enabled]⟩
        intro v hvw
        simp only [hfw]
        rw [if_neg hvw]
        by_cases hf : (unsetFocus s last).1.focus v = true
        · by_cases hl : s.enabled last = true
          · obtain ⟨hvl, hfv⟩ := unsetFocus_clears s last hl v hf
            obtain ⟨hpv, _⟩ := hInv v hfv
            rw [hfw] at hpv
            exact absurd (Option.some.inj hpv) (Ne.symm hvl)
          · rw [show (unsetFocus s last).1 = s from by
                unfold unsetFocus
                rw [if_pos (by simpa using hl)]] at hf
            obtain ⟨hpv, henv⟩ := hInv v hf
            rw [hfw] at hpv
            rw [← Option.some.inj hpv] at henv
            exact absurd henv hl
        · exact Bool.not_eq_true _ ▸ hf

theorem setFocusTrue_inv (s : FocusState) (w : Nat) (hInv : FocusInv s) :
    FocusInv (setFocusTrue s w).1 := by
  by_cases he : s.enabled w = true
  · obtain ⟨hfoc, hptr, hothers, hen⟩ := setFocusTrue_focus s w hInv he
    intro v hv
    by_cases hvw : v = w
    · subst hvw
      exact ⟨hptr, by rw [hen]; exact he⟩
    · exact absurd hv (by simp [hothers v hvw])
  · unfold setFocusTrue
    rw [if_pos (by simpa using he)]
    exact hInv

theorem setFocus_inv (s : FocusState) (w : Nat) (e : Bool) (hInv : FocusInv s) :
    FocusInv (setFocus s w e).1 := by
  unfold setFocus
  cases e
  · exact unsetFocus_inv s w hInv
  · exact setFocusTrue_inv s w hInv

/-- C2: at most one widget holds focus at a time: coherent states have at
most one focused widget, coherence is preserved by every `setFocus` call,
and focusing enabled widget A and then enabled widget B leaves B focused
with the global pointer on B and A unfocused. -/
theorem C2_focus_unique (s : FocusState) (w A B : Nat) (e : Bool)
    (hInv : FocusInv s) (_hA : s.enabled A = true) (hB : s.enabled B = true)
    (hAB : A ≠ B) :
    (∀ a b, s.focus a = true → s.focus b = true → a = b)
    ∧ FocusInv (setFocus s w e).1
    ∧ (setFocus (setFocus s A true).1 B true).1.focus B = true
    ∧ (setFocus (setFocus s A true).1 B true).1.focus A = false
    ∧ (setFocus (setFocus s A true).1 B true).1.focusWidget = some B := by
  refine ⟨?_, setFocus_inv s w e hInv, ?_, ?_, ?_⟩
  · intro a b ha hb
    have hpa := (hInv a ha).1
    have hpb := (hInv b hb).1
    rw [hpa] at hpb
    exact Option.some.inj hpb
  all_goals
    have h1 : FocusInv (setFocus s A true).1 := setFocus_inv s A true hInv
    have he1 : (setFocus s A true).1.enabled = s.enabled := by
      show (setFocusTrue s A).1.enabled = s.enabled
      by_cases heA : s.enabled A = true
      · exact (setFocusTrue_focus s A hInv heA).2.2.2
      · unfold setFocusTrue
        rw [if_pos (by simpa using heA)]
    have h2 := setFocusTrue_focus (setFocus s A true).1 B h1 (by rw [he1]; exact hB)
  · exact h2.1
  · exact h2.2.2.1 A hAB
  · exact h2.2.1

/-- Outcome of one `changeFocus` run: the resulting focus state, the value
returned, and whether `follower->setFocus()` was invoked. -/
structure ChangeFocusResult where
  state : FocusState
  returned : Bool
  followerSetFocusInvoked : Bool

/-- Embeds `FWidget::changeFocus` (fwidget.cpp:2119-2157).  Event dispatch is
modelled by the resulting accept bits: `outAccepted` is the accept state of
the focus-out event after dispatch to the current widget (modelled from the
spec: a focus event starts accepted — the source explicitly calls
`cfo.ignore()` only on the child-focus-out event — and the base
`onFocusOut` leaves it untouched); `cfoAccepted` is the state of the
child-focus-out event after dispatch to the common parent (default `false`
by the explicit `cfo.ignore()`); `inAccepted` is the state of the focus-in
event after dispatch to the follower — it only gates redraw/flush calls,
which carry no focus state.  If the parent accepted the child-focus-out,
the focus-out is forced to ignored; only an accepted focus-out proceeds,
and a self-transfer then returns `false` before any `setFocus`. -/
def changeFocus (s : FocusState) (self follower : Nat)
    (cfoAccepted outAccepted _inAccepted : Bool) : ChangeFocusResult :=
  let outFinal := if cfoAccepted then false else outAccepted
  if outFinal then
    if follower = self then
      { state := s, returned := false, followerSetFocusInvoked := false }
    else
      { state := (setFocus s follower true).1, returned := true
        followerSetFocusInvoked := true }
  else
    { state := s, returned := true, followerSetFocusInvoked := false }

/-- C7: when the common parent accepts the child-focus-out event (parent
veto), `changeFocus` never transfers focus: the focus state — including the
old holder's flag and the global pointer — is unchanged and `setFocus` is
never invoked on the follower. -/
theorem C7_parent_veto (s : FocusState) (self follower : Nat)
    (outAccepted inAccepted : Bool) :
    (changeFocus s self follower true outAccepted inAccepted).state = s
    ∧ (changeFocus s self follower true outAccepted
        inAccepted).followerSetFocusInvoked = false := by
  constructor <;> rfl

/-- A state with every widget enabled and none focused. -/
def idleFocusState : FocusState :=
  { enabled := fun _ => true, focus := fun _ => false, focusWidget := none }

/-- C9 counterexample: claimed — a self-transfer always returns `false`.
When the parent accepts the child-focus-out event, the focus-out is forced
to ignored and `changeFocus` returns `true` (fwidget.cpp:2156) without ever
reaching the self-transfer check. -/
theorem C9_counterexample :
    (changeFocus idleFocusState 0 0 true true true).returned = true := rfl

/-- C9 (amended): a self-transfer never invokes `setFocus` on the follower
and leaves the focus state unchanged; it returns `false` exactly when the
focus-out event is ultimately accepted (the default: focus-out starts
accepted and the parent's child-focus-out veto starts ignored), and `true`
when the focus-out ends up ignored, e.g. under a parent veto. -/
theorem C9_self_transfer (s : FocusState) (self : Nat)
    (cfoAccepted outAccepted inAccepted : Bool) :
    (changeFocus s self self cfoAccepted outAccepted inAccepted).state = s
    ∧ (changeFocus s self self cfoAccepted outAccepted
        inAccepted).followerSetFocusInvoked = false
    ∧ ((changeFocus s self self cfoAccepted outAccepted inAccepted).returned = false
        ↔ (cfoAccepted = false ∧ outAccepted = true)) := by
  cases cfoAccepted <;> cases outAccepted <;>
    refine ⟨?_, ?_, ?_⟩ <;> simp [changeFocus]

/-- Modelled from the spec: `FProgressbar::NOT_SET` (fprogressbar.h, not
under `src/`) is `static_cast<std::size_t>(-1)`, the largest 64-bit
`std::size_t` value, used as the "no percentage" sentinel. -/
def NOT_SET : Nat := 2 ^ 64 - 1

/-- Embeds `FProgressbar::setPercentage` (fprogressbar.cpp:48-66): the
sentinel stores the sentinel; values above 100 clamp to 100; a value not
above the currently set percentage is ignored; otherwise the value is
stored.  Drawing and terminal updates carry no percentage state. -/
def setPercentage (percentage : Nat) (percentage_value : Nat) : Nat :=
  if percentage_value = NOT_SET then NOT_SET
  else if percentage_value > 100 then 100
  else if percentage_value ≤ percentage ∧ percentage ≠ NOT_SET then percentage
  else percentage_value

/-- Embeds `FProgressbar::reset` (fprogressbar.cpp:108-119): the stored
percentage returns to the sentinel. -/
def progressbarReset (_percentage : Nat) : Nat := NOT_SET

/-- C10: `setPercentage` clamps every non-sentinel value above 100 to 100;
a value not exceeding the currently set percentage leaves it unchanged; a
set percentage never decreases under any single call or sequence of calls
with non-sentinel values; and only `reset()` or `setPercentage (NOT_SET)`
can lower it, by returning to the sentinel. -/
theorem C10_percentage_monotone :
    (∀ p v, v ≠ NOT_SET → 100 < v → setPercentage p v = 100)
    ∧ (∀ p v, p ≠ NOT_SET → p ≤ 100 → v ≤ p → setPercentage p v = p)
    ∧ (∀ p v, p ≠ NOT_SET → p ≤ 100 → v ≠ NOT_SET → p ≤ setPercentage p v
        ∧ setPercentage p v ≠ NOT_SET ∧ setPercentage p v ≤ 100)
    ∧ (∀ p (vs : List Nat), p ≠ NOT_SET → p ≤ 100 → (∀ v ∈ vs, v ≠ NOT_SET)
        → p ≤ vs.foldl setPercentage p)
    ∧ (∀ p, setPercentage p NOT_SET = NOT_SET ∧ progressbarReset p = NOT_SET) := by
  have hstep : ∀ p v, p ≠ NOT_SET → p ≤ 100 → v ≠ NOT_SET →
      p ≤ setPercentage p v ∧ setPercentage p v ≠ NOT_SET
      ∧ setPercentage p v ≤ 100 := by
    intro p v hp hp100 hv
    unfold setPercentage NOT_SET at *
    split_ifs with h1 h2 h3 <;> omega
  refine ⟨?_, ?_, hstep, ?_, ?_⟩
  · intro p v hv h100
    unfold setPercentage NOT_SET at *
    split_ifs <;> omega
  · intro p v hp hp100 hvp
    unfold setPercentage NOT_SET at *
    split_ifs with h1 h2 h3 <;> omega
  · intro p vs
    induction vs generalizing p with
    | nil => intro _ _ _; exact le_refl p
    | cons v rest ih =>
        intro hp hp100 hall
        obtain ⟨hle, hns, h100⟩ := hstep p v hp hp100 (hall v (by simp))
        have := ih (setPercentage p v) hns h100
          (fun u hu => hall u (by simp [hu]))
        calc p ≤ setPercentage p v := hle
          _ ≤ List.foldl setPercentage (setPercentage p v) rest := this
  · intro p
    constructor
    · unfold setPercentage
      rw [if_pos rfl]
    · rfl

/-- Witness for C2 at a concrete state: all widgets enabled, none focused;
focusing widget 0 and then widget 1 leaves 1 focused, 0 unfocused, and the
pointer on 1. -/
theorem C2_focus_unique_witness :
    FocusInv idleFocusState
    ∧ (setFocus (setFocus idleFocusState 0 true).1 1 true).1.focus 1 = true
    ∧ (setFocus (setFocus idleFocusState 0 true).1 1 true).1.focus 0 = false
    ∧ (setFocus (setFocus idleFocusState 0 true).1 1 true).1.focusWidget = some 1 := by
  have hInv : FocusInv idleFocusState := by
    intro v hv
    simp [idleFocusState] at hv
  have h := C2_focus_unique idleFocusState 5 0 1 true hInv rfl rfl (by decide)
  exact ⟨hInv, h.2.2.1, h.2.2.2.1, h.2.2.2.2⟩

/-- Witness for C5 at a concrete input: `setWidth 12` with the adjust flag
set mutates `staleOffsetWidget` (the returned Bool is true) and the client
offset ends consistent. -/
theorem C5_client_offset_witness :
    (setWidth ⟨0, 0, 79, 23⟩ staleOffsetWidget 12 true).2 = true
    ∧ clientOffsetConsistent (setWidth ⟨0, 0, 79, 23⟩ staleOffsetWidget 12 true).1 := by
  have h := C5_client_offset ⟨0, 0, 79, 23⟩ staleOffsetWidget 99 99 99 99 99 99 12 99 true
    (by decide)
  exact ⟨rfl, h.2.2.2.2.1 rfl⟩

/-- Witness for C6 at a concrete input: the mask invariant holds on
`maskDriftWidget` and is preserved by `setWidth 9` without the adjust
flag. -/
theorem C6_mask_lengths_witness :
    maskLengthsConsistent maskDriftWidget
    ∧ maskLengthsConsistent (setWidth ⟨0, 0, 79, 23⟩ maskDriftWidget 9 false).1 := by
  have h : maskLengthsConsistent maskDriftWidget := by
    refine ⟨?_, ?_, ?_, ?_⟩ <;> decide
  exact ⟨h, (C6_mask_lengths ⟨0, 0, 79, 23⟩ ⟨0, 0, 79, 23⟩ maskDriftWidget 9 9 9 9 h).1⟩

/-- Witness for C8 at a concrete input: requesting exactly the stored
position (1,1) and the stored (clamp-invariant) sizes 10×5 is a no-op for
`setPos` and `setGeometry` even with the adjust flag set. -/
theorem C8_noop_guard_witness :
    setPos ⟨0, 0, 79, 23⟩ posClampWidget 1 1 true = (posClampWidget, false)
    ∧ setGeometry ⟨0, 0, 79, 23⟩ posClampWidget 1 1 10 5 true = (posClampWidget, false) := by
  have h := C8_noop_guard ⟨0, 0, 79, 23⟩ posClampWidget 1 1 10 5 true
    (by decide) (by decide) (by decide) (by decide)
  exact ⟨h.1, h.2.1⟩

/-- Witness for C10 at concrete inputs: 150 clamps to 100; 30 against a
stored 50 is ignored; a call sequence never lowers a set percentage; the
sentinel stores the sentinel. -/
theorem C10_percentage_monotone_witness :
    setPercentage 50 150 = 100
    ∧ setPercentage 50 30 = 50
    ∧ 50 ≤ [60, 20, 80].foldl setPercentage 50
    ∧ setPercentage 50 NOT_SET = NOT_SET := by
  have h := C10_percentage_monotone
  exact ⟨h.1 50 150 (by decide) (by decide),
         h.2.1 50 30 (by decide) (by decide) (by decide),
         h.2.2.2.1 50 [60, 20, 80] (by decide) (by decide) (by decide),
         (h.2.2.2.2 50).1⟩

end FinalCut
